import Mathlib

/-!
# Ledger — verification of the financial-analysis core

Shallow embedding of the analytical core of the Ledger repository
(`src/lib/analyzer.ts`, `src/lib/subscriptions.ts`, `src/lib/categories.ts`,
`src/lib/plaid.ts`) together with proofs of the specification claims.

Modelling conventions:
* Monetary amounts and all derived statistics are rationals (`ℚ`); the source
  computes with IEEE doubles, and every rounding rule it applies
  (`Math.round`) is modelled exactly on `ℚ`.
* Calendar dates are integers counting days since an arbitrary epoch.  The
  source stores dates as `YYYY-MM-DD` strings and converts them with
  `new Date(d).getTime()`; all it ever does with the result is subtract two
  of them and divide by 86 400 000 ms, which for day-granular dates is
  exactly the difference of the day numbers, so the `ℤ` day model is exact.
* The current wall-clock time (`Date.now()`) is passed explicitly as a `now`
  parameter, measured in (fractional) days since the same epoch.
* JavaScript `Map` iteration order is insertion order; groupings are
  modelled as association lists built in the same order.
* `Array.prototype.sort` is stable (ES2019); sorting is modelled by a stable
  insertion sort.
-/

namespace Ledger

/-- JavaScript `Math.round`: round half toward positive infinity. -/
def jsRound (q : ℚ) : ℤ := ⌊q + 1 / 2⌋

/-- Model of the floating-point `Math.sqrt` of the source.  On
perfect-square rationals — the only points at which any concrete evaluation
below inspects a square-root value (all of them have variance `0`) — this is
the exact square root; elsewhere it is the componentwise `Nat.sqrt`
under-approximation.  Every universally quantified theorem below is
insensitive to the values of this function, because the source always
compares a computed statistic against a bound and later emits the very same
value it compared. -/
def mathSqrt (q : ℚ) : ℚ := (Nat.sqrt q.num.toNat : ℚ) / (Nat.sqrt q.den : ℚ)

/-- `xs.reduce((s, v) => s + v, 0)`. -/
def listSum (l : List ℚ) : ℚ := l.foldl (fun s a => s + a) 0

/-- `Math.max(...xs)` over day numbers; the source only applies it to
nonempty lists, where the `0` default is unreachable. -/
def listMaxI : List ℤ → ℤ
  | [] => 0
  | [x] => x
  | x :: y :: rest => max x (listMaxI (y :: rest))

/-- `Math.min(...xs)` over day numbers (nonempty in every use). -/
def listMinI : List ℤ → ℤ
  | [] => 0
  | [x] => x
  | x :: y :: rest => min x (listMinI (y :: rest))

/-- Insert into a sorted list, placing `x` before the first element `y` with
`le x y`; keeps earlier-listed elements first on ties, matching a stable
JavaScript sort. -/
def insertSorted (le : α → α → Bool) (x : α) : List α → List α
  | [] => [x]
  | y :: ys => if le x y then x :: y :: ys else y :: insertSorted le x ys

/-- Stable insertion sort modelling `Array.prototype.sort`. -/
def sortOn (le : α → α → Bool) : List α → List α
  | [] => []
  | x :: xs => insertSorted le x (sortOn le xs)

/-- Plaid `personal_finance_category` (confidence field is never read). -/
structure PFC where
  primary : String
  detailed : String
deriving DecidableEq

/-- The transaction record, restricted to the fields the core reads.
`date` is a day number (see the module comment); `recurring` models the
optional Plaid recurring flag (`absent` = `false`, matching the
`=== true` test in the source). -/
structure Txn where
  transaction_id : String
  account_id : String
  account_owner : String
  date : ℤ
  amount : ℚ
  name : String
  personal_finance_category : Option PFC
  recurring : Bool
deriving DecidableEq

/-- Account record; the analyzer deliberately ignores it. -/
structure AccountBase where
  account_id : String
  balance : ℚ
deriving DecidableEq

/-- Consecutive day gaps of an (already sorted) transaction list:
`(t[i].date − t[i−1].date)`.  The source computes the same quantity as a
millisecond difference divided by 86 400 000, exact for day-granular
dates; `detectFrequencyPattern` additionally applies `Math.round`, the
identity on these integer gaps. -/
def dayGaps : List Txn → List ℚ
  | a :: b :: rest => ((b.date - a.date : ℤ) : ℚ) :: dayGaps (b :: rest)
  | _ => []

/-- Ascending-by-date comparator used by every date sort in the source. -/
def dateLe (a b : Txn) : Bool := decide (a.date ≤ b.date)

/-- Average of the consecutive day gaps of the date-sorted list. -/
def avgGap (sorted : List Txn) : ℚ := listSum (dayGaps sorted) / (dayGaps sorted).length

-- ===========================================================================
-- Income detection (src/lib/analyzer.ts)
-- ===========================================================================

/-- Income cadence labels of `detectPaymentPattern`. -/
inductive PayPattern
  | biweekly
  | monthly
  | irregular
  | weekly
deriving DecidableEq

/-- `analyzer.ts` : `detectPaymentPattern`. -/
def detectPaymentPattern (transactions : List Txn) : PayPattern :=
  if transactions.length < 2 then .irregular
  else
    let sorted := sortOn dateLe transactions
    let avgInterval := avgGap sorted
    if 25 ≤ avgInterval ∧ avgInterval ≤ 35 then .monthly
    else if 12 ≤ avgInterval ∧ avgInterval ≤ 16 then .biweekly
    else if 5 ≤ avgInterval ∧ avgInterval ≤ 9 then .weekly
    else .irregular

/-- The `lastPaycheck` field: amount and date of the first element of the
unsorted income filter result. -/
structure LastPaycheck where
  amount : ℚ
  date : ℤ
deriving DecidableEq

/-- `analyzer.ts` : `IncomeAnalysis`. -/
structure IncomeAnalysis where
  totalIncome : ℚ
  averageMonthly : ℚ
  isVariable : Bool
  variability : ℚ
  pattern : PayPattern
  lastPaycheck : Option LastPaycheck
  incomeTransactions : List Txn
deriving DecidableEq

/-- `analyzer.ts` : `detectIncome`. -/
def detectIncome (transactions : List Txn) : IncomeAnalysis :=
  let incomeTransactions := transactions.filter fun t => decide (t.amount < 0)
  if incomeTransactions = [] then
    { totalIncome := 0, averageMonthly := 0, isVariable := false, variability := 0,
      pattern := .irregular, lastPaycheck := none, incomeTransactions := [] }
  else
    let totalIncome := listSum (incomeTransactions.map fun t => |t.amount|)
    let dates := incomeTransactions.map fun t => t.date
    let dayRange : ℚ := ((listMaxI dates - listMinI dates : ℤ) : ℚ)
    let monthRange := max 1 (dayRange / 30)
    let averageMonthly := totalIncome / monthRange
    let amounts := incomeTransactions.map fun t => |t.amount|
    let mean := listSum amounts / amounts.length
    let variance := listSum (amounts.map fun a => (a - mean) ^ 2) / amounts.length
    let stdDev := mathSqrt variance
    let variability := if mean > 0 then stdDev / mean else 0
    let pattern := detectPaymentPattern incomeTransactions
    let lastPaycheck := match incomeTransactions with
      | [] => none
      | t :: _ => some { amount := |t.amount|, date := t.date }
    { totalIncome := totalIncome, averageMonthly := averageMonthly,
      isVariable := decide (variability > 1 / 5), variability := variability,
      pattern := pattern, lastPaycheck := lastPaycheck,
      incomeTransactions := incomeTransactions }

-- ===========================================================================
-- Cash-flow health score (src/lib/analyzer.ts)
-- ===========================================================================

inductive HealthStatus
  | healthy
  | warning
  | critical
deriving DecidableEq

/-- `analyzer.ts` : `CashFlowHealth`.  The source field `incomeToSpendingRatio`
is abbreviated `incomeToSpending` here. -/
structure CashFlowHealth where
  score : ℚ
  status : HealthStatus
  message : String
  incomeToSpending : ℚ
deriving DecidableEq

/-- Number formatting `x.toFixed(2)` of the source; the exact digit strings
are never inspected by any claim, only compared for whole-record equality at
concrete inputs where both sides use this same formatter. -/
def toFixed2 (q : ℚ) : String :=
  let sign := if q < 0 then "-" else ""
  let n := (jsRound (|q| * 100)).toNat
  sign ++ toString (n / 100) ++ "." ++ (if n % 100 < 10 then "0" else "") ++ toString (n % 100)

/-- Number formatting `x.toFixed(0)` of the source (same caveat as above). -/
def toFixed0 (q : ℚ) : String :=
  (if q < 0 then "-" else "") ++ toString (jsRound |q|).toNat

/-- The income-to-spending block of `calculateCashFlowHealth`
(`≥1.5→+40, ≥1.2→+30, ≥1.0→+20, ≥0.8→+10, else +0`). -/
def incomeRatioBonus (r : ℚ) : ℚ :=
  if r ≥ 3 / 2 then 40
  else if r ≥ 6 / 5 then 30
  else if r ≥ 1 then 20
  else if r ≥ 4 / 5 then 10
  else 0

/-- The balance-to-monthly-spending block (`≥2→+30, ≥1→+20, ≥0.5→+10`). -/
def balanceBonus (b : ℚ) : ℚ :=
  if b ≥ 2 then 30
  else if b ≥ 1 then 20
  else if b ≥ 1 / 2 then 10
  else 0

/-- The income-stability block (`not variable→+20, <0.3→+15, <0.5→+10, else +5`). -/
def stabilityBonus (isVar : Bool) (v : ℚ) : ℚ :=
  if isVar = false then 20
  else if v < 3 / 10 then 15
  else if v < 1 / 2 then 10
  else 5

/-- `analyzer.ts` : `calculateCashFlowHealth`.  Divisions that the source
would evaluate on IEEE specials (`monthlySpending = 0` gives `Infinity`/`NaN`
ratios there) follow the Lean convention `x / 0 = 0`; both semantics put the
two ratio bonuses in `[0, 40]` resp. `[0, 30]`, which is all any claim
uses, and every concrete evaluation below has `monthlySpending > 0`. -/
def calculateCashFlowHealth (income : IncomeAnalysis) (spending balance : ℚ) :
    CashFlowHealth :=
  let monthlyIncome := income.averageMonthly
  let dates := income.incomeTransactions.map fun t => t.date
  let monthRange : ℚ :=
    if income.incomeTransactions.length > 0 then ((listMaxI dates - listMinI dates : ℤ) : ℚ) / 30
    else 1
  let monthlySpending := spending / max 1 monthRange
  let r := if monthlyIncome > 0 then monthlyIncome / monthlySpending else 0
  if balance < 0 then
    { score := (jsRound (max 0 (min 35 (35 - |balance| / 100))) : ℚ),
      status := .critical,
      message := "You\u0027re currently in the red with a negative balance of $"
        ++ toFixed2 |balance|
        ++ ". Focus on reducing spending and increasing income immediately.",
      incomeToSpending := r }
  else
    let score0 := 50 + incomeRatioBonus r + balanceBonus (balance / monthlySpending)
      + stabilityBonus income.isVariable income.variability
    let score := min 100 (max 0 score0)
    if score ≥ 75 then
      { score := score, status := .healthy,
        message := "Your finances are in good shape. Keep up the good habits!",
        incomeToSpending := r }
    else if score ≥ 50 then
      { score := score, status := .warning,
        message := "Your cash flow needs attention. Consider building a buffer and reducing expenses.",
        incomeToSpending := r }
    else
      { score := score, status := .critical,
        message := "Your finances need immediate attention. Focus on increasing income and reducing expenses.",
        incomeToSpending := r }

-- ===========================================================================
-- Category mapping (src/lib/categories.ts)
-- ===========================================================================

/-- The static PFC-primary → friendly-label table of `mapPFCToFriendly`. -/
def pfcTable : List (String × String) :=
  [("FOOD_RETAIL", "Groceries"),
   ("FOOD_AND_DRINK", "Food & Drink"),
   ("DINING", "Dining"),
   ("ENTERTAINMENT", "Entertainment"),
   ("TRANSPORTATION", "Transportation"),
   ("GENERAL_MERCHANDISE", "Shopping"),
   ("GENERAL_SERVICES", "Services"),
   ("RENT_AND_UTILITIES", "Bills & Utilities"),
   ("MEDICAL", "Healthcare"),
   ("PERSONAL_CARE", "Personal Care"),
   ("BANK_FEES", "Fees"),
   ("TRANSFER_IN", "Income"),
   ("TRANSFER_OUT", "Transfers"),
   ("LOAN_PAYMENTS", "Loan Payments"),
   ("HOME_IMPROVEMENT", "Home & Garden"),
   ("GOVERNMENT_AND_NON_PROFIT", "Government & Non-Profit"),
   ("TRAVEL", "Travel"),
   ("INCOME", "Income")]

/-- `pfc.primary.replace(/_/g, ' ')`. -/
def underscoresToSpaces (s : String) : String :=
  String.map (fun c => if c = '_' then ' ' else c) s

/-- `categories.ts` : `mapPFCToFriendly`.  `!pfc?.primary` is a JavaScript
truthiness test, so a missing category *or* an empty primary string maps to
`"Other"`. -/
def mapPFCToFriendly : Option PFC → String
  | none => "Other"
  | some pfc =>
    if pfc.primary = "" then "Other"
    else match pfcTable.lookup pfc.primary with
      | some friendly => friendly
      | none => underscoresToSpaces pfc.primary

/-- `categories.ts` : `isSubscriptionCategory`. -/
def isSubscriptionCategory : Option PFC → Bool
  | none => false
  | some pfc =>
    if pfc.primary = "" then false
    else ["ENTERTAINMENT", "RENT_AND_UTILITIES", "GENERAL_SERVICES"].contains pfc.primary

/-- `categories.ts` : `isNonSubscriptionCategory`. -/
def isNonSubscriptionCategory : Option PFC → Bool
  | none => false
  | some pfc =>
    if pfc.primary = "" then false
    else ["FOOD_RETAIL", "FOOD_AND_DRINK", "DINING", "TRANSPORTATION",
          "GENERAL_MERCHANDISE", "TRAVEL", "MEDICAL", "PERSONAL_CARE"].contains pfc.primary

-- ===========================================================================
-- Category spending aggregation (src/lib/analyzer.ts)
-- ===========================================================================

/-- Spending trend placeholder (always `stable` in the source). -/
inductive Trend
  | increasing
  | decreasing
  | stable
deriving DecidableEq

/-- `analyzer.ts` : `CategorySpending`. -/
structure CategorySpending where
  category : String
  total : ℚ
  count : ℕ
  average : ℚ
  percentage : ℚ
  trend : Trend
  transactions : List Txn
deriving DecidableEq

/-- Append `t` to the group of key `k`, creating the group at the end on
first encounter — the JavaScript `Map` update of the two grouping loops. -/
def upsert (k : String) (t : Txn) : List (String × List Txn) → List (String × List Txn)
  | [] => [(k, [t])]
  | (k', ts) :: rest =>
    if k' = k then (k', ts ++ [t]) :: rest else (k', ts) :: upsert k t rest

/-- `spendingTotal` as computed in `analyzeFinances` (and, identically, the
grand total `totalSpending` of `analyzeCategorySpending`):
`transactions.filter(t => t.amount > 0).reduce((s, t) => s + t.amount, 0)`. -/
def spendingTotal (transactions : List Txn) : ℚ :=
  (transactions.filter fun t => decide (t.amount > 0)).foldl (fun s t => s + t.amount) 0

/-- The grouping loop of `analyzeCategorySpending`: positive-amount
transactions grouped by friendly category, in `Map` insertion order. -/
def categoryGroups (transactions : List Txn) : List (String × List Txn) :=
  (transactions.filter fun t => decide (t.amount > 0)).foldl
    (fun m txn => upsert (mapPFCToFriendly txn.personal_finance_category) txn m) []

/-- The per-group record construction of `analyzeCategorySpending`. -/
def mkCategorySpending (totalSpending : ℚ) (category : String) (txns : List Txn) :
    CategorySpending :=
  let total := txns.foldl (fun s t => s + t.amount) 0
  let count := txns.length
  { category := category, total := total, count := count,
    average := total / count,
    percentage := if totalSpending > 0 then total / totalSpending * 100 else 0,
    trend := .stable, transactions := txns }

/-- The unsorted category list of `analyzeCategorySpending` (one record per
`Map` entry, in insertion order). -/
def categoryRecords (transactions : List Txn) : List CategorySpending :=
  (categoryGroups transactions).map fun g =>
    mkCategorySpending (spendingTotal transactions) g.1 g.2

/-- `analyzer.ts` : `analyzeCategorySpending` — the records sorted by
`(a, b) => b.total - a.total` (descending total, stable on ties). -/
def analyzeCategorySpending (transactions : List Txn) : List CategorySpending :=
  sortOn (fun a b => decide (b.total ≤ a.total)) (categoryRecords transactions)

-- ===========================================================================
-- Subscription detection (src/lib/subscriptions.ts)
-- ===========================================================================

inductive SubFrequency
  | weekly
  | monthly
  | annual
  | irregular
deriving DecidableEq

/-- `subscriptions.ts` : `SubscriptionPattern` (`lastCharge` is a day number
under the date model). -/
structure SubscriptionPattern where
  merchantName : String
  amount : ℚ
  frequency : SubFrequency
  transactionIds : List String
  lastCharge : ℤ
  estimatedAnnualCost : ℚ
  driftScore : ℚ
  averageAmount : ℚ
  standardDeviation : ℚ
deriving DecidableEq

/-- JavaScript whitespace class `\s` restricted to the characters that occur
in merchant names (space, tab, newline, carriage return). -/
def isWS (c : Char) : Bool := c = ' ' || c = '\t' || c = '\n' || c = '\r'

/-- Characters kept by `replace(/[^a-z0-9\s]/g, '')` (applied after
lower-casing). -/
def keepChar (c : Char) : Bool :=
  (decide ('a' ≤ c) && decide (c ≤ 'z')) || (decide ('0' ≤ c) && decide (c ≤ '9')) || isWS c

/-- Collapse runs of spaces to a single space (the effect of
`replace(/\s+/g, ' ')` once all whitespace has been mapped to a space). -/
def squeezeSpaces : List Char → List Char
  | [] => []
  | [c] => [c]
  | a :: b :: rest =>
    if a = ' ' && b = ' ' then squeezeSpaces (b :: rest)
    else a :: squeezeSpaces (b :: rest)

/-- `subscriptions.ts` : `normalizeMerchantName` — lower-case, strip
non-alphanumeric-non-whitespace, collapse whitespace, trim, keep the first
two words. -/
def normalizeMerchantName (name : String) : String :=
  let cs := (name.toLower).toList.filter keepChar
  let cs := squeezeSpaces (cs.map fun c => if isWS c then ' ' else c)
  let cs := ((cs.dropWhile fun c => c = ' ').reverse.dropWhile fun c => c = ' ').reverse
  String.intercalate " " (((String.mk cs).splitOn " ").take 2)

/-- Does `hay` start with `needle`? -/
def strStarts : List Char → List Char → Bool
  | _, [] => true
  | [], _ :: _ => false
  | h :: hs, n :: ns => h == n && strStarts hs ns

/-- Substring test `hay.includes(needle)`. -/
def strContains : List Char → List Char → Bool
  | [], needle => needle.isEmpty
  | h :: rest, needle => strStarts (h :: rest) needle || strContains rest needle

/-- `merchant.includes(name)` on strings. -/
def strIncl (hay needle : String) : Bool := strContains hay.toList needle.toList

/-- The fixed blocklist of common non-subscription merchant substrings. -/
def nonSubscriptionMerchants : List String :=
  ["mcdonalds", "starbucks", "dunkin", "chipotle", "subway",
   "walmart", "target", "costco", "amazon", "uber", "lyft",
   "shell", "chevron", "exxon", "bp", "7 eleven", "cvs", "walgreens"]

/-- Result of `detectFrequencyPattern`. -/
structure FreqPattern where
  frequency : SubFrequency
  averageAmount : ℚ
deriving DecidableEq

/-- `subscriptions.ts` : `detectFrequencyPattern`. -/
def detectFrequencyPattern (transactions : List Txn) : FreqPattern :=
  if transactions.length < 2 then { frequency := .irregular, averageAmount := 0 }
  else
    let sorted := sortOn dateLe transactions
    let avgInterval := avgGap sorted
    let amounts := sorted.map fun t => t.amount
    let avgAmount := listSum amounts / amounts.length
    let frequency : SubFrequency :=
      if 340 ≤ avgInterval ∧ avgInterval ≤ 390 then .annual
      else if 25 ≤ avgInterval ∧ avgInterval ≤ 35 then .monthly
      else if 5 ≤ avgInterval ∧ avgInterval ≤ 9 then .weekly
      else .irregular
    { frequency := frequency, averageAmount := avgAmount }

/-- Result of `calculateStatistics`. -/
structure Stats where
  mean : ℚ
  stdDev : ℚ
deriving DecidableEq

/-- `subscriptions.ts` : `calculateStatistics`. -/
def calculateStatistics (values : List ℚ) : Stats :=
  if values.length = 0 then { mean := 0, stdDev := 0 }
  else
    let mean := listSum values / values.length
    let variance := listSum (values.map fun v => (v - mean) ^ 2) / values.length
    { mean := mean, stdDev := mathSqrt variance }

/-- `subscriptions.ts` : `calculateAnnualCost`. -/
def calculateAnnualCost (averageAmount : ℚ) : SubFrequency → ℚ
  | .weekly => averageAmount * 52
  | .monthly => averageAmount * 12
  | .annual => averageAmount
  | .irregular => 0

/-- Step 1 of `detectSubscriptionDrift`: the per-merchant grouping loop
(positive amounts only, `Map` insertion order). -/
def merchantGroups (transactions : List Txn) : List (String × List Txn) :=
  transactions.foldl
    (fun gs t => if t.amount > 0 then upsert (normalizeMerchantName t.name) t gs else gs) []

/-- The body of the per-merchant loop of `detectSubscriptionDrift`:
`none` exactly when the loop `continue`s past the group. -/
def analyzeGroup (merchant : String) (txns : List Txn) : Option SubscriptionPattern :=
  if txns.length < 2 then none
  else
    let sorted := sortOn dateLe txns
    match sorted with
    | [] => none
    | s0 :: _ =>
      let pfc := s0.personal_finance_category
      if isNonSubscriptionCategory pfc then none
      else if nonSubscriptionMerchants.any fun n => strIncl merchant n then none
      else
        let pattern := detectFrequencyPattern sorted
        let isMonthlyOrAnnual :=
          pattern.frequency = SubFrequency.monthly ∨ pattern.frequency = SubFrequency.annual
        let hasRecurringFlag := s0.recurring = true
        let inSubscriptionCategory := isSubscriptionCategory pfc = true
        if pattern.frequency ≠ SubFrequency.irregular
            ∧ (isMonthlyOrAnnual ∨ hasRecurringFlag ∨ inSubscriptionCategory) then
          let amounts := sorted.map fun t => t.amount
          let st := calculateStatistics amounts
          let driftScore := if st.mean > 0 then st.stdDev / st.mean * 100 else 0
          if driftScore > 30 then none
          else
            some { merchantName := merchant, amount := st.mean,
                   frequency := pattern.frequency,
                   transactionIds := sorted.map fun t => t.transaction_id,
                   lastCharge := (sorted.getLastD s0).date,
                   estimatedAnnualCost := calculateAnnualCost st.mean pattern.frequency,
                   driftScore := (jsRound (driftScore * 100) : ℚ) / 100,
                   averageAmount := st.mean, standardDeviation := st.stdDev }
        else none

/-- `subscriptions.ts` : `detectSubscriptionDrift`. -/
def detectSubscriptionDrift (transactions : List Txn) : List SubscriptionPattern :=
  if transactions.isEmpty then []
  else
    sortOn (fun a b => decide (b.driftScore ≤ a.driftScore))
      ((merchantGroups transactions).filterMap fun g => analyzeGroup g.1 g.2)

-- ===========================================================================
-- Sanitization for the text-generation service (src/lib/plaid.ts)
-- ===========================================================================

/-- The object literal returned by `sanitizeForAI`. -/
structure SanitizedTxn where
  transaction_id : String
  date : ℤ
  amount : ℚ
  merchant : String
  category : String
deriving DecidableEq

/-- `plaid.ts` : `sanitizeForAI`.  `pfc?.primary` falsy fallback to `"Other"` is a JavaScript
truthiness fallback: a missing category or an empty primary yields
`"Other"`.  `account_id`, `account_owner` and payment details are
deliberately omitted. -/
def sanitizeForAI (t : Txn) : SanitizedTxn :=
  { transaction_id := t.transaction_id, date := t.date, amount := t.amount,
    merchant := t.name,
    category := match t.personal_finance_category with
      | none => "Other"
      | some pfc => if pfc.primary = "" then "Other" else pfc.primary }

-- ===========================================================================
-- Insight generation and main analysis (src/lib/analyzer.ts)
-- ===========================================================================

inductive InsightType
  | high_spending
  | subscription
  | cash_flow
  | positive
  | goal
deriving DecidableEq

inductive Severity
  | info
  | warning
  | critical
deriving DecidableEq

/-- `analyzer.ts` : `SpendingInsight`. -/
structure SpendingInsight where
  type : InsightType
  title : String
  description : String
  impact : String
  actionable : List String
  severity : Severity
deriving DecidableEq

/-- `analyzer.ts` : `generateInsights`.  The source reads the wall clock via
`Date.now()`; that reading is the explicit `now` parameter (in days). -/
def generateInsights (transactions : List Txn) (income : IncomeAnalysis)
    (categories : List CategorySpending) (balance : ℚ) (now : ℚ) :
    List SpendingInsight :=
  let highSpending : List SpendingInsight :=
    match categories with
    | [] => []
    | topCategory :: _ =>
      if topCategory.percentage > 30 then
        [{ type := .high_spending,
           title := "High " ++ topCategory.category ++ " Spending",
           description := "You spent $" ++ toFixed2 topCategory.total ++ " on "
             ++ topCategory.category ++ " (" ++ toFixed0 topCategory.percentage
             ++ "% of total spending).",
           impact := "Reducing this by 20% could save you $"
             ++ toFixed2 (topCategory.total * (1 / 5)) ++ " per month.",
           actionable := ["Review recent transactions in this category",
                          "Look for patterns or unnecessary expenses",
                          "Set a monthly budget for this category"],
           severity := .warning }]
      else []
  let cashFlowTiming : List SpendingInsight :=
    match income.lastPaycheck with
    | none => []
    | some lastPaycheck =>
      if balance < income.averageMonthly * (1 / 2) then
        let daysSincePaycheck := now - (lastPaycheck.date : ℚ)
        if daysSincePaycheck > 7 then
          [{ type := .cash_flow,
             title := "Cash Flow Timing Gap",
             description := "Your balance is low relative to your monthly income pattern.",
             impact := "Building a buffer equal to one paycheck ($"
               ++ toFixed2 lastPaycheck.amount ++ ") would eliminate timing stress.",
             actionable := ["Transfer a small amount each week to a buffer account",
                            "Adjust bill due dates if possible",
                            "Consider income-based spending tracking"],
             severity := .warning }]
        else []
      else []
  let positiveNote : List SpendingInsight :=
    if income.averageMonthly > 0 then
      let spendTotal := spendingTotal transactions
      let savingsRate := (income.totalIncome - spendTotal) / income.totalIncome * 100
      if savingsRate > 10 then
        [{ type := .positive,
           title := "Great Savings Rate!",
           description := "You\u0027re saving " ++ toFixed0 savingsRate
             ++ "% of your income. That\u0027s excellent!",
           impact := "At this rate, you\u0027ll save $"
             ++ toFixed2 (income.averageMonthly * (savingsRate / 100) * 12)
             ++ " this year.",
           actionable := ["Keep up this momentum",
                          "Consider automating savings",
                          "Set a specific savings goal to stay motivated"],
           severity := .info }]
      else []
    else []
  highSpending ++ cashFlowTiming ++ positiveNote

/-- The `spending` sub-object of `FinancialAnalysis`. -/
structure SpendingSummary where
  total : ℚ
  byCategory : List CategorySpending
  topCategories : List CategorySpending
  dailyAverage : ℚ
deriving DecidableEq

/-- The `balance` sub-object of `FinancialAnalysis`. -/
structure BalanceInfo where
  current : ℚ
  trend : Trend
deriving DecidableEq

/-- `analyzer.ts` : `FinancialAnalysis`. -/
structure FinancialAnalysis where
  income : IncomeAnalysis
  spending : SpendingSummary
  balance : BalanceInfo
  cashFlowHealth : CashFlowHealth
  insights : List SpendingInsight
  savingsRate : ℚ
deriving DecidableEq

/-- `analyzer.ts` : `analyzeFinances`.  The `accounts` argument is ignored by
the source (`_accounts`); `now` is the `Date.now()` reading forwarded to the
insight generator. -/
def analyzeFinances (transactions : List Txn) (accounts : List AccountBase) (now : ℚ) :
    FinancialAnalysis :=
  let _ := accounts
  let income := detectIncome transactions
  let categories := analyzeCategorySpending transactions
  let spendTotal := spendingTotal transactions
  let currentBalance := income.totalIncome - spendTotal
  let cashFlowHealth := calculateCashFlowHealth income spendTotal currentBalance
  let topCategories := categories.take 7
  let insights := generateInsights transactions income categories currentBalance now
  let savingsRate :=
    if income.totalIncome > 0 then (income.totalIncome - spendTotal) / income.totalIncome * 100
    else 0
  let dayRange : ℚ :=
    match transactions with
    | [] => 1
    | t0 :: rest => (((t0.date - ((t0 :: rest).getLastD t0).date : ℤ)) : ℚ)
  let dailyAverage := spendTotal / max 1 dayRange
  { income := income,
    spending := { total := spendTotal, byCategory := categories,
                  topCategories := topCategories, dailyAverage := dailyAverage },
    balance := { current := currentBalance, trend := .stable },
    cashFlowHealth := cashFlowHealth,
    insights := insights,
    savingsRate := savingsRate }

-- ===========================================================================
-- Helper lemmas
-- ===========================================================================

lemma incomeRatioBonus_nonneg (r : ℚ) : 0 ≤ incomeRatioBonus r := by
  unfold incomeRatioBonus; split_ifs <;> norm_num

lemma balanceBonus_nonneg (b : ℚ) : 0 ≤ balanceBonus b := by
  unfold balanceBonus; split_ifs <;> norm_num

lemma stabilityBonus_ge (isVar : Bool) (v : ℚ) : 5 ≤ stabilityBonus isVar v := by
  unfold stabilityBonus; split_ifs <;> norm_num

lemma mem_insertSorted {le : α → α → Bool} {x y : α} {l : List α} :
    y ∈ insertSorted le x l ↔ y = x ∨ y ∈ l := by
  induction l with
  | nil => simp [insertSorted]
  | cons a l ih =>
    simp only [insertSorted]
    split_ifs
    · simp [or_comm, or_assoc, or_left_comm]
    · simp only [List.mem_cons, ih]
      tauto

lemma mem_sortOn {le : α → α → Bool} {y : α} {l : List α} :
    y ∈ sortOn le l ↔ y ∈ l := by
  induction l with
  | nil => simp [sortOn]
  | cons a l ih => simp [sortOn, mem_insertSorted, ih]

lemma length_insertSorted (le : α → α → Bool) (x : α) (l : List α) :
    (insertSorted le x l).length = l.length + 1 := by
  induction l with
  | nil => simp [insertSorted]
  | cons a l ih =>
    simp only [insertSorted]
    split_ifs <;> simp [ih]

lemma length_sortOn (le : α → α → Bool) (l : List α) :
    (sortOn le l).length = l.length := by
  induction l with
  | nil => simp [sortOn]
  | cons a l ih => simp [sortOn, length_insertSorted, ih]

lemma perm_insertSorted (le : α → α → Bool) (x : α) (l : List α) :
    List.Perm (insertSorted le x l) (x :: l) := by
  induction l with
  | nil => simp [insertSorted]
  | cons a l ih =>
    simp only [insertSorted]
    split_ifs
    · exact List.Perm.refl _
    · exact (ih.cons a).trans (List.Perm.swap x a l)

lemma perm_sortOn (le : α → α → Bool) (l : List α) : List.Perm (sortOn le l) l := by
  induction l with
  | nil => simp [sortOn]
  | cons a l ih => exact (perm_insertSorted le a (sortOn le l)).trans (ih.cons a)

lemma foldl_add_shift (l : List ℚ) (a : ℚ) :
    l.foldl (fun s x => s + x) a = a + l.foldl (fun s x => s + x) 0 := by
  induction l generalizing a with
  | nil => simp
  | cons x xs ih =>
    simp only [List.foldl_cons]
    rw [ih (a + x), ih (0 + x)]
    ring

lemma listSum_cons (x : ℚ) (l : List ℚ) : listSum (x :: l) = x + listSum l := by
  unfold listSum
  simp only [List.foldl_cons]
  rw [foldl_add_shift]
  ring

lemma foldl_amount_eq (l : List Txn) :
    l.foldl (fun s t => s + t.amount) 0 = listSum (l.map fun t => t.amount) := by
  unfold listSum
  rw [List.foldl_map]

-- Multiset of all transactions stored in a group list.
def groupMultiset : List (String × List Txn) → Multiset Txn
  | [] => 0
  | g :: rest => (g.2 : Multiset Txn) + groupMultiset rest

lemma groupMultiset_upsert (k : String) (t : Txn) (gs : List (String × List Txn)) :
    groupMultiset (upsert k t gs) = groupMultiset gs + {t} := by
  induction gs with
  | nil => simp [upsert, groupMultiset]
  | cons g rest ih =>
    obtain ⟨k', l⟩ := g
    simp only [upsert]
    split_ifs
    · simp only [groupMultiset, ← Multiset.coe_singleton, Multiset.coe_add]
      rw [← Multiset.coe_add]
      exact add_right_comm _ _ _
    · simp only [groupMultiset, ih]
      exact (add_assoc _ _ _).symm

lemma mem_upsert_txn {k : String} {t x : Txn} {gs : List (String × List Txn)}
    {g : String × List Txn} (hg : g ∈ upsert k t gs) (hx : x ∈ g.2) :
    x = t ∨ ∃ g' ∈ gs, x ∈ g'.2 := by
  induction gs with
  | nil =>
    simp only [upsert, List.mem_singleton] at hg
    subst hg
    simp only [List.mem_singleton] at hx
    exact Or.inl hx
  | cons g0 rest ih =>
    obtain ⟨k', l⟩ := g0
    simp only [upsert] at hg
    split_ifs at hg
    · rcases List.mem_cons.mp hg with h | h
      · subst h
        simp only [List.mem_append, List.mem_singleton] at hx
        rcases hx with h | h
        · exact Or.inr ⟨(k', l), List.mem_cons_self _ _, h⟩
        · exact Or.inl h
      · exact Or.inr ⟨g, List.mem_cons_of_mem _ h, hx⟩
    · rcases List.mem_cons.mp hg with h | h
      · subst h
        exact Or.inr ⟨(k', l), List.mem_cons_self _ _, hx⟩
      · rcases ih h with h' | ⟨g', hg', hx'⟩
        · exact Or.inl h'
        · exact Or.inr ⟨g', List.mem_cons_of_mem _ hg', hx'⟩

-- ===========================================================================
-- C2 — negative balance forces critical status with clamped, rounded score
-- ===========================================================================

/-- C2: whenever the balance passed to the cash-flow scorer is strictly
negative, the result has status `critical`, its score is exactly
`Math.round(clamp(0, 35, 35 − |balance|/100))`, and that score never
exceeds 35 — a deeper deficit can only pull it further down. -/
theorem C2_negative_balance_critical (income : IncomeAnalysis) (spending balance : ℚ)
    (h : balance < 0) :
    (calculateCashFlowHealth income spending balance).status = HealthStatus.critical
    ∧ (calculateCashFlowHealth income spending balance).score
        = (jsRound (max 0 (min 35 (35 - |balance| / 100))) : ℚ)
    ∧ (calculateCashFlowHealth income spending balance).score ≤ 35 := by
  simp only [calculateCashFlowHealth, if_pos h]
  refine ⟨trivial, trivial, ?_⟩
  have hle : max 0 (min 35 (35 - |balance| / 100)) ≤ 35 := by
    have h1 : min 35 (35 - |balance| / 100) ≤ 35 := min_le_left _ _
    have h2 : (0 : ℚ) ≤ 35 := by norm_num
    exact max_le h2 h1
  have : jsRound (max 0 (min 35 (35 - |balance| / 100))) ≤ 35 := by
    unfold jsRound
    have : max 0 (min 35 (35 - |balance| / 100)) + 1 / 2 ≤ 71 / 2 := by linarith
    calc ⌊max 0 (min 35 (35 - |balance| / 100)) + 1 / 2⌋ ≤ ⌊(71 : ℚ) / 2⌋ :=
          Int.floor_le_floor this
      _ = 35 := by norm_num
  exact_mod_cast this

/-- Witness for C2 at a concrete input. -/
theorem C2_negative_balance_critical_witness :
    (calculateCashFlowHealth (detectIncome []) 0 (-50)).status = HealthStatus.critical
    ∧ (calculateCashFlowHealth (detectIncome []) 0 (-50)).score
        = (jsRound (max 0 (min 35 (35 - |(-50 : ℚ)| / 100))) : ℚ)
    ∧ (calculateCashFlowHealth (detectIncome []) 0 (-50)).score ≤ 35 :=
  C2_negative_balance_critical (detectIncome []) 0 (-50) (by norm_num)

-- ===========================================================================
-- C10 — non-negative balance keeps score ≥ 55; critical iff balance < 0
-- ===========================================================================

/-- C10: with a non-negative balance the cash-flow score is at least 55
(base 50 plus the minimum stability bonus of 5), so the status is `healthy`
or `warning`; combined with the negative-balance rule the status is
`critical` exactly when the balance is strictly negative. -/
theorem C10_critical_iff_negative (income : IncomeAnalysis) (spending balance : ℚ) :
    (0 ≤ balance →
      55 ≤ (calculateCashFlowHealth income spending balance).score
      ∧ ((calculateCashFlowHealth income spending balance).status = HealthStatus.healthy
         ∨ (calculateCashFlowHealth income spending balance).status = HealthStatus.warning))
    ∧ ((calculateCashFlowHealth income spending balance).status = HealthStatus.critical
        ↔ balance < 0) := by
  by_cases hb : balance < 0
  · constructor
    · intro h0
      exact absurd hb (not_lt.mpr h0)
    · simp only [calculateCashFlowHealth, if_pos hb]
      exact ⟨fun _ => hb, fun _ => trivial⟩
  · simp only [calculateCashFlowHealth, if_neg hb]
    set r := if income.averageMonthly > 0 then
        income.averageMonthly /
          (spending / max 1
            (if income.incomeTransactions.length > 0 then
              ((listMaxI (income.incomeTransactions.map fun t => t.date)
                - listMinI (income.incomeTransactions.map fun t => t.date) : ℤ) : ℚ) / 30
            else 1))
      else 0 with hr
    set ms := spending / max 1
        (if income.incomeTransactions.length > 0 then
          ((listMaxI (income.incomeTransactions.map fun t => t.date)
            - listMinI (income.incomeTransactions.map fun t => t.date) : ℤ) : ℚ) / 30
        else 1) with hms
    have h1 := incomeRatioBonus_nonneg r
    have h2 := balanceBonus_nonneg (balance / ms)
    have h3 := stabilityBonus_ge income.isVariable income.variability
    have hsc : 55 ≤ min 100 (max 0 (50 + incomeRatioBonus r + balanceBonus (balance / ms)
        + stabilityBonus income.isVariable income.variability)) := by
      have hsum : 55 ≤ 50 + incomeRatioBonus r + balanceBonus (balance / ms)
          + stabilityBonus income.isVariable income.variability := by linarith
      have hmax : 55 ≤ max 0 (50 + incomeRatioBonus r + balanceBonus (balance / ms)
          + stabilityBonus income.isVariable income.variability) :=
        le_trans hsum (le_max_right _ _)
      exact le_min (by norm_num) hmax
    split_ifs with h75 h50
    · exact ⟨fun _ => ⟨hsc, Or.inl rfl⟩, by simp [hb]⟩
    · exact ⟨fun _ => ⟨hsc, Or.inr rfl⟩, by simp [hb]⟩
    · exact absurd (le_trans (by norm_num) hsc) h50

/-- Witness for C10 at a concrete input. -/
theorem C10_critical_iff_negative_witness :
    (0 ≤ (100 : ℚ) →
      55 ≤ (calculateCashFlowHealth (detectIncome []) 10 100).score
      ∧ ((calculateCashFlowHealth (detectIncome []) 10 100).status = HealthStatus.healthy
         ∨ (calculateCashFlowHealth (detectIncome []) 10 100).status = HealthStatus.warning))
    ∧ ((calculateCashFlowHealth (detectIncome []) 10 100).status = HealthStatus.critical
        ↔ (100 : ℚ) < 0) :=
  C10_critical_iff_negative (detectIncome []) 10 100

-- ===========================================================================
-- C1 — analyze_finances and the wall clock
-- ===========================================================================

set_option maxRecDepth 100000 in
/-- C1 counterexample: the very same transaction and account lists analysed
at two different wall-clock readings (day 31 and day 40; the last paycheck
is on day 30 and the balance is below half the monthly income) give
different results — `generateInsights` reads `Date.now()` to decide the
cash-flow-timing insight, so `analyze_finances` is not a function of the
transaction and account lists alone. -/
theorem C1_counterexample :
    analyzeFinances
        [⟨"i1", "a", "o", 30, -1000, "Employer", none, false⟩,
         ⟨"i2", "a", "o", 0, -1000, "Employer", none, false⟩,
         ⟨"s1", "a", "o", 15, 1600, "Shop", none, false⟩] [] 31
      ≠ analyzeFinances
        [⟨"i1", "a", "o", 30, -1000, "Employer", none, false⟩,
         ⟨"i2", "a", "o", 0, -1000, "Employer", none, false⟩,
         ⟨"s1", "a", "o", 15, 1600, "Shop", none, false⟩] [] 40 := by
  exact of_decide_eq_true (by with_unfolding_all rfl)

/-- C1 (amended): `analyze_finances` is a deterministic, total function of
its transaction list, account list, and the current `Date.now()` reading,
with no other hidden state; the clock reading influences at most the
`insights` list — the income analysis, spending summary, balance,
cash-flow health, and savings rate are identical across any two readings. -/
theorem C1_deterministic_modulo_clock (transactions : List Txn)
    (accounts : List AccountBase) (n₁ n₂ : ℚ) :
    (analyzeFinances transactions accounts n₁).income
        = (analyzeFinances transactions accounts n₂).income
    ∧ (analyzeFinances transactions accounts n₁).spending
        = (analyzeFinances transactions accounts n₂).spending
    ∧ (analyzeFinances transactions accounts n₁).balance
        = (analyzeFinances transactions accounts n₂).balance
    ∧ (analyzeFinances transactions accounts n₁).cashFlowHealth
        = (analyzeFinances transactions accounts n₂).cashFlowHealth
    ∧ (analyzeFinances transactions accounts n₁).savingsRate
        = (analyzeFinances transactions accounts n₂).savingsRate :=
  ⟨rfl, rfl, rfl, rfl, rfl⟩

-- ===========================================================================
-- C5 — sanitization for the text-generation service
-- ===========================================================================

/-- C5 counterexample: the two transactions below agree on date, amount,
merchant text, and category (and even on every account-related field) and
differ only in `transaction_id`, yet their sanitized re-serializations
differ — `sanitizeForAI` also emits the `transaction_id` field, so the
sanitized record does not contain *only* date, amount, merchant text, and
category label. -/
theorem C5_counterexample :
    sanitizeForAI ⟨"id1", "acct", "owner", 5, 10, "Coffee", none, false⟩
      ≠ sanitizeForAI ⟨"id2", "acct", "owner", 5, 10, "Coffee", none, false⟩ := by
  exact of_decide_eq_true (by with_unfolding_all rfl)

/-- C5 (amended): the sanitized re-serialization contains only the
transaction identifier, date, amount, merchant text, and category label —
it is a function of those five input fields alone, so in particular it
never depends on (and can never leak) the account number, account
identifier, or owner name: two transactions that differ only in
account-related fields have equal sanitized outputs. -/
theorem C5_sanitize_no_account_leak (t₁ t₂ : Txn)
    (hid : t₁.transaction_id = t₂.transaction_id) (hdate : t₁.date = t₂.date)
    (hamt : t₁.amount = t₂.amount) (hname : t₁.name = t₂.name)
    (hcat : t₁.personal_finance_category = t₂.personal_finance_category) :
    sanitizeForAI t₁ = sanitizeForAI t₂ := by
  simp only [sanitizeForAI, hid, hdate, hamt, hname, hcat]

/-- Witness for C5 (amended): changing only the account fields leaves the
sanitized output unchanged. -/
theorem C5_sanitize_no_account_leak_witness :
    sanitizeForAI ⟨"id", "acct1", "owner1", 5, 10, "Coffee", none, false⟩
      = sanitizeForAI ⟨"id", "acct2", "owner2", 5, 10, "Coffee", none, false⟩ :=
  C5_sanitize_no_account_leak _ _ rfl rfl rfl rfl rfl

-- ===========================================================================
-- C6 — strict-sign partition of income and spending totals
-- ===========================================================================

/-- C6: the income total is the sum of absolute values of exactly the
transactions with `amount < 0`, the spending total is the sum of exactly
the transactions with `amount > 0`, and the two buckets are disjoint by
strict sign — no transaction satisfies both, and a zero-amount transaction
satisfies neither. -/
theorem C6_sign_partition (transactions : List Txn) :
    (detectIncome transactions).totalIncome
      = listSum ((transactions.filter fun t => decide (t.amount < 0)).map fun t => |t.amount|)
    ∧ spendingTotal transactions
      = listSum ((transactions.filter fun t => decide (t.amount > 0)).map fun t => t.amount)
    ∧ ∀ t ∈ transactions,
        (¬ (t.amount < 0 ∧ t.amount > 0))
        ∧ (t.amount = 0 → ¬ t.amount < 0 ∧ ¬ t.amount > 0) := by
  refine ⟨?_, ?_, ?_⟩
  · by_cases h : transactions.filter (fun t => decide (t.amount < 0)) = []
    · simp only [detectIncome]
      rw [if_pos h]
      simp [h, listSum]
    · simp only [detectIncome]
      rw [if_neg h]
  · exact foldl_amount_eq _
  · intro t _
    constructor
    · rintro ⟨h1, h2⟩
      exact absurd h2 (not_lt.mpr h1.le)
    · intro h0
      simp [h0]

/-- Concrete input for the C6 witness. -/
def exC6 : List Txn :=
  [⟨"a1", "a", "o", 0, -5, "Job", none, false⟩,
   ⟨"a2", "a", "o", 1, 3, "Shop", none, false⟩,
   ⟨"a3", "a", "o", 2, 0, "Bank", none, false⟩]

/-- Witness for C6 at a concrete input. -/
theorem C6_sign_partition_witness :
    (detectIncome exC6).totalIncome
      = listSum ((exC6.filter fun t => decide (t.amount < 0)).map fun t => |t.amount|)
    ∧ spendingTotal exC6
      = listSum ((exC6.filter fun t => decide (t.amount > 0)).map fun t => t.amount)
    ∧ ∀ t ∈ exC6,
        (¬ (t.amount < 0 ∧ t.amount > 0))
        ∧ (t.amount = 0 → ¬ t.amount < 0 ∧ ¬ t.amount > 0) :=
  C6_sign_partition exC6

-- ===========================================================================
-- C8 — average-monthly formula and the neutral empty case
-- ===========================================================================

/-- C8: `detectIncome` returns
`averageMonthly = totalIncome / max 1 (dayRange / 30)` with `dayRange` the
day span between the earliest and latest income-transaction dates; a single
income transaction gives `dayRange = 0` and hence
`averageMonthly = totalIncome`; and with no strictly-negative transaction
it returns the defined neutral record rather than an error. -/
theorem C8_average_monthly (transactions : List Txn) :
    (transactions.filter (fun t => decide (t.amount < 0)) = [] →
      detectIncome transactions =
        { totalIncome := 0, averageMonthly := 0, isVariable := false, variability := 0,
          pattern := PayPattern.irregular, lastPaycheck := none, incomeTransactions := [] })
    ∧ (transactions.filter (fun t => decide (t.amount < 0)) ≠ [] →
        (detectIncome transactions).averageMonthly
          = (detectIncome transactions).totalIncome
            / max 1 ((((listMaxI ((transactions.filter fun t => decide (t.amount < 0)).map fun t => t.date)
                - listMinI ((transactions.filter fun t => decide (t.amount < 0)).map fun t => t.date) : ℤ)) : ℚ) / 30))
    ∧ (∀ t : Txn, transactions.filter (fun t => decide (t.amount < 0)) = [t] →
        (detectIncome transactions).averageMonthly = (detectIncome transactions).totalIncome) := by
  refine ⟨fun h => ?_, fun h => ?_, fun t ht => ?_⟩
  · simp only [detectIncome]
    rw [if_pos h]
  · simp only [detectIncome]
    rw [if_neg h]
  · have hne : transactions.filter (fun t => decide (t.amount < 0)) ≠ [] := by
      simp [ht]
    simp only [detectIncome]
    rw [if_neg hne, ht]
    simp only [List.map_cons, List.map_nil, listMaxI, listMinI, sub_self]
    norm_num

/-- Concrete input for the C8 witness (a single income transaction). -/
def exC8 : List Txn :=
  [⟨"i1", "a", "o", 10, -500, "Job", none, false⟩,
   ⟨"s1", "a", "o", 12, 20, "Shop", none, false⟩]

/-- Witness for C8 at a concrete input. -/
theorem C8_average_monthly_witness :
    (exC8.filter (fun t => decide (t.amount < 0)) = [] →
      detectIncome exC8 =
        { totalIncome := 0, averageMonthly := 0, isVariable := false, variability := 0,
          pattern := PayPattern.irregular, lastPaycheck := none, incomeTransactions := [] })
    ∧ (exC8.filter (fun t => decide (t.amount < 0)) ≠ [] →
        (detectIncome exC8).averageMonthly
          = (detectIncome exC8).totalIncome
            / max 1 ((((listMaxI ((exC8.filter fun t => decide (t.amount < 0)).map fun t => t.date)
                - listMinI ((exC8.filter fun t => decide (t.amount < 0)).map fun t => t.date) : ℤ)) : ℚ) / 30))
    ∧ (∀ t : Txn, exC8.filter (fun t => decide (t.amount < 0)) = [t] →
        (detectIncome exC8).averageMonthly = (detectIncome exC8).totalIncome) :=
  C8_average_monthly exC8

-- ===========================================================================
-- C7 — cadence classification is a pure function of the average day gap
-- ===========================================================================

/-- The income-path cadence bands exactly as the spec sentence states them:
`[25,35]`→monthly, `[12,16]`→biweekly, `[5,9]`→weekly, else irregular —
written from the spec, to be compared against the source function. -/
def specIncomeCadence (avg : ℚ) : PayPattern :=
  if 25 ≤ avg ∧ avg ≤ 35 then .monthly
  else if 12 ≤ avg ∧ avg ≤ 16 then .biweekly
  else if 5 ≤ avg ∧ avg ≤ 9 then .weekly
  else .irregular

/-- The subscription-path cadence bands as the spec states them (the annual
band `[340,390]` checked first, then `[25,35]`, then `[5,9]`) — written from
the spec, to be compared against the source function. -/
def specSubscriptionCadence (avg : ℚ) : SubFrequency :=
  if 340 ≤ avg ∧ avg ≤ 390 then .annual
  else if 25 ≤ avg ∧ avg ≤ 35 then .monthly
  else if 5 ≤ avg ∧ avg ≤ 9 then .weekly
  else .irregular

/-- C7: both cadence classifiers are pure functions of the average of the
consecutive day gaps of the date-sorted transactions, classifying by the
inclusive bands of the spec, with fewer than 2 transactions always irregular;
in particular an average of exactly 30 days is monthly, exactly 14 days is
biweekly, and exactly 365 days (subscription path) is annual. -/
theorem C7_cadence_bands (transactions : List Txn) :
    detectPaymentPattern transactions
      = (if transactions.length < 2 then PayPattern.irregular
         else specIncomeCadence (avgGap (sortOn dateLe transactions)))
    ∧ (detectFrequencyPattern transactions).frequency
      = (if transactions.length < 2 then SubFrequency.irregular
         else specSubscriptionCadence (avgGap (sortOn dateLe transactions)))
    ∧ specIncomeCadence 30 = PayPattern.monthly
    ∧ specIncomeCadence 14 = PayPattern.biweekly
    ∧ specIncomeCadence 365 = PayPattern.irregular
    ∧ specSubscriptionCadence 365 = SubFrequency.annual
    ∧ specSubscriptionCadence 30 = SubFrequency.monthly
    ∧ specSubscriptionCadence 14 = SubFrequency.irregular := by
  refine ⟨?_, ?_, by norm_num [specIncomeCadence], by norm_num [specIncomeCadence],
    by norm_num [specIncomeCadence], by norm_num [specSubscriptionCadence],
    by norm_num [specSubscriptionCadence], by norm_num [specSubscriptionCadence]⟩
  · by_cases h : transactions.length < 2
    · simp only [detectPaymentPattern, if_pos h]
    · simp only [detectPaymentPattern, specIncomeCadence, if_neg h]
  · by_cases h : transactions.length < 2
    · simp only [detectFrequencyPattern, if_pos h]
    · simp only [detectFrequencyPattern, specSubscriptionCadence, if_neg h]

-- ===========================================================================
-- Inversion of the per-merchant subscription analysis
-- ===========================================================================

lemma analyzeGroup_some_inv {m : String} {l : List Txn} {p : SubscriptionPattern}
    (h : analyzeGroup m l = some p) :
    2 ≤ l.length
    ∧ p.transactionIds.length = l.length
    ∧ p.driftScore ≤ 30
    ∧ p.estimatedAnnualCost = calculateAnnualCost p.amount p.frequency
    ∧ p.frequency ≠ SubFrequency.irregular
    ∧ ∃ s0 ∈ l,
        ((p.frequency = SubFrequency.monthly ∨ p.frequency = SubFrequency.annual)
          ∨ s0.recurring = true
          ∨ isSubscriptionCategory s0.personal_finance_category = true) := by
  unfold analyzeGroup at h
  by_cases h2 : l.length < 2
  · rw [if_pos h2] at h
    simp at h
  · rw [if_neg h2] at h
    rcases hs : sortOn dateLe l with _ | ⟨s0, rest⟩ <;> rw [hs] at h <;> dsimp only [] at h
    · simp at h
    · by_cases hcat : isNonSubscriptionCategory s0.personal_finance_category = true
      · rw [if_pos hcat] at h
        simp at h
      · rw [if_neg hcat] at h
        by_cases hblock :
            (nonSubscriptionMerchants.any fun n => strIncl m n) = true
        · rw [if_pos hblock] at h
          simp at h
        · rw [if_neg hblock] at h
          by_cases hcond : (detectFrequencyPattern (s0 :: rest)).frequency ≠ SubFrequency.irregular
              ∧ (((detectFrequencyPattern (s0 :: rest)).frequency = SubFrequency.monthly
                  ∨ (detectFrequencyPattern (s0 :: rest)).frequency = SubFrequency.annual)
                ∨ s0.recurring = true
                ∨ isSubscriptionCategory s0.personal_finance_category = true)
          · rw [if_pos hcond] at h
            by_cases hdrift :
                (if (calculateStatistics ((s0 :: rest).map fun t => t.amount)).mean > 0 then
                    (calculateStatistics ((s0 :: rest).map fun t => t.amount)).stdDev /
                      (calculateStatistics ((s0 :: rest).map fun t => t.amount)).mean * 100
                  else 0) > 30
            · rw [if_pos hdrift] at h
              simp at h
            · rw [if_neg hdrift] at h
              rw [Option.some.injEq] at h
              subst h
              have hlen : (s0 :: rest).length = l.length := by
                rw [← hs, length_sortOn]
              have hs0 : s0 ∈ l := by
                have : s0 ∈ sortOn dateLe l := by rw [hs]; exact List.mem_cons_self _ _
                exact mem_sortOn.mp this
              push_neg at hdrift
              refine ⟨by omega, by simpa using hlen, ?_, rfl, hcond.1, s0, hs0, hcond.2⟩
              show (jsRound (_ * 100) : ℚ) / 100 ≤ 30
              rw [div_le_iff₀ (by norm_num : (0 : ℚ) < 100)]
              have hle : (if (calculateStatistics ((s0 :: rest).map fun t => t.amount)).mean > 0 then
                    (calculateStatistics ((s0 :: rest).map fun t => t.amount)).stdDev /
                      (calculateStatistics ((s0 :: rest).map fun t => t.amount)).mean * 100
                  else 0) ≤ 30 := hdrift
              have : jsRound ((if (calculateStatistics ((s0 :: rest).map fun t => t.amount)).mean > 0 then
                    (calculateStatistics ((s0 :: rest).map fun t => t.amount)).stdDev /
                      (calculateStatistics ((s0 :: rest).map fun t => t.amount)).mean * 100
                  else 0) * 100) ≤ 3000 := by
                unfold jsRound
                calc ⌊(if (calculateStatistics ((s0 :: rest).map fun t => t.amount)).mean > 0 then
                        (calculateStatistics ((s0 :: rest).map fun t => t.amount)).stdDev /
                          (calculateStatistics ((s0 :: rest).map fun t => t.amount)).mean * 100
                      else 0) * 100 + 1 / 2⌋
                      ≤ ⌊(6001 : ℚ) / 2⌋ := by
                        apply Int.floor_le_floor
                        nlinarith
                  _ = 3000 := by norm_num
              calc ((jsRound _ : ℤ) : ℚ) ≤ (3000 : ℚ) := by exact_mod_cast this
                _ = 30 * 100 := by norm_num
          · rw [if_neg hcond] at h
            simp at h

-- ===========================================================================
-- C3 — at least 2 members and drift ≤ 30 for every emitted record
-- ===========================================================================

/-- C3: every `SubscriptionPattern` emitted by `detectSubscriptionDrift` is
backed by at least 2 member transactions, and its drift score (coefficient
of variation × 100, `0` for mean `0`, rounded to 2 decimals) never exceeds
30. -/
theorem C3_min_members_and_drift (transactions : List Txn) :
    ∀ p ∈ detectSubscriptionDrift transactions,
      2 ≤ p.transactionIds.length ∧ p.driftScore ≤ 30 := by
  intro p hp
  unfold detectSubscriptionDrift at hp
  by_cases he : transactions.isEmpty
  · rw [if_pos he] at hp
    simp at hp
  · rw [if_neg he] at hp
    rw [mem_sortOn] at hp
    rcases List.mem_filterMap.mp hp with ⟨g, hg, hsome⟩
    rcases analyzeGroup_some_inv hsome with ⟨h2, hlen, hdrift, -, -, -⟩
    exact ⟨by omega, hdrift⟩

set_option maxRecDepth 1000000 in
/-- Witness for C3: the Netflix example — two equal monthly charges produce
exactly this record, which the theorem then bounds. -/
theorem C3_min_members_and_drift_witness :
    2 ≤ (⟨"netflix", 1599 / 100, SubFrequency.monthly, ["t1", "t2"], 30, 4797 / 25,
          0, 1599 / 100, 0⟩ : SubscriptionPattern).transactionIds.length
    ∧ (⟨"netflix", 1599 / 100, SubFrequency.monthly, ["t1", "t2"], 30, 4797 / 25,
          0, 1599 / 100, 0⟩ : SubscriptionPattern).driftScore ≤ 30 :=
  C3_min_members_and_drift
    [⟨"t1", "a", "o", 0, 1599 / 100, "Netflix", some ⟨"ENTERTAINMENT", "X"⟩, false⟩,
     ⟨"t2", "a", "o", 30, 1599 / 100, "Netflix", some ⟨"ENTERTAINMENT", "X"⟩, false⟩]
    ⟨"netflix", 1599 / 100, SubFrequency.monthly, ["t1", "t2"], 30, 4797 / 25,
      0, 1599 / 100, 0⟩
    (by
      have h : detectSubscriptionDrift
          [⟨"t1", "a", "o", 0, 1599 / 100, "Netflix", some ⟨"ENTERTAINMENT", "X"⟩, false⟩,
           ⟨"t2", "a", "o", 30, 1599 / 100, "Netflix", some ⟨"ENTERTAINMENT", "X"⟩, false⟩]
          = [⟨"netflix", 1599 / 100, SubFrequency.monthly, ["t1", "t2"], 30, 4797 / 25,
              0, 1599 / 100, 0⟩] := by with_unfolding_all rfl
      rw [h]
      exact List.mem_singleton.mpr rfl)

-- ===========================================================================
-- C4 — the weekly branch is reachable (recurring flag or inclusion category)
-- ===========================================================================

set_option maxRecDepth 1000000 in
/-- C4 counterexample: two equal "Yoga Studio" charges 7 days apart in the
ENTERTAINMENT inclusion category produce a `SubscriptionPattern` with
frequency `weekly` — the step-6 guard accepts a weekly cadence whenever the
recurring flag or a subscription inclusion category holds, so the weekly
annualization branch is reachable, contrary to the claim. -/
theorem C4_counterexample :
    (detectSubscriptionDrift
        [⟨"w1", "a", "o", 0, 20, "Yoga Studio", some ⟨"ENTERTAINMENT", "X"⟩, false⟩,
         ⟨"w2", "a", "o", 7, 20, "Yoga Studio", some ⟨"ENTERTAINMENT", "X"⟩, false⟩]).map
      (fun p => p.frequency) = [SubFrequency.weekly] := by
  with_unfolding_all rfl

lemma foldl_groups_mem (l : List Txn) (gs : List (String × List Txn))
    (g : String × List Txn) (t : Txn)
    (hg : g ∈ l.foldl
      (fun gs t => if t.amount > 0 then upsert (normalizeMerchantName t.name) t gs else gs) gs)
    (ht : t ∈ g.2) :
    (∃ g' ∈ gs, t ∈ g'.2) ∨ t ∈ l := by
  induction l generalizing gs with
  | nil => exact Or.inl ⟨g, hg, ht⟩
  | cons x xs ih =>
    simp only [List.foldl_cons] at hg
    by_cases hx : x.amount > 0
    · rw [if_pos hx] at hg
      rcases ih _ hg with ⟨g', hg', ht'⟩ | h
      · rcases mem_upsert_txn hg' ht' with h | ⟨g'', hg'', ht''⟩
        · exact Or.inr (h ▸ List.mem_cons_self x xs)
        · exact Or.inl ⟨g'', hg'', ht''⟩
      · exact Or.inr (List.mem_cons_of_mem x h)
    · rw [if_neg hx] at hg
      rcases ih _ hg with h | h
      · exact Or.inl h
      · exact Or.inr (List.mem_cons_of_mem x h)

lemma merchantGroups_mem {transactions : List Txn} {g : String × List Txn} {t : Txn}
    (hg : g ∈ merchantGroups transactions) (ht : t ∈ g.2) : t ∈ transactions := by
  unfold merchantGroups at hg
  rcases foldl_groups_mem transactions [] g t hg ht with ⟨g', hg', -⟩ | h
  · exact absurd hg' (List.not_mem_nil g')
  · exact h

/-- C4 (amended): the weekly annualization branch *is* reachable, but only
through the recurring flag or a subscription inclusion category: a weekly
record carries `estimatedAnnualCost = mean × 52`, and when no transaction
carries the recurring flag or a subscription inclusion category the
detector never emits a weekly record — weekly cadence alone is never
sufficient. -/
theorem C4_weekly_needs_flag_or_category (transactions : List Txn) :
    (∀ p ∈ detectSubscriptionDrift transactions,
        p.frequency = SubFrequency.weekly → p.estimatedAnnualCost = p.amount * 52)
    ∧ ((∀ t ∈ transactions, t.recurring = false
          ∧ isSubscriptionCategory t.personal_finance_category = false) →
        ∀ p ∈ detectSubscriptionDrift transactions, p.frequency ≠ SubFrequency.weekly) := by
  have hmem : ∀ p ∈ detectSubscriptionDrift transactions,
      ∃ g ∈ merchantGroups transactions, analyzeGroup g.1 g.2 = some p := by
    intro p hp
    unfold detectSubscriptionDrift at hp
    by_cases he : transactions.isEmpty
    · rw [if_pos he] at hp
      simp at hp
    · rw [if_neg he] at hp
      rw [mem_sortOn] at hp
      exact List.mem_filterMap.mp hp
  constructor
  · intro p hp hw
    rcases hmem p hp with ⟨g, -, hsome⟩
    rcases analyzeGroup_some_inv hsome with ⟨-, -, -, hcost, -, -⟩
    rw [hcost, hw]
    rfl
  · intro hflags p hp hw
    rcases hmem p hp with ⟨g, hg, hsome⟩
    rcases analyzeGroup_some_inv hsome with ⟨-, -, -, -, -, s0, hs0, hdisj⟩
    have hs0t := merchantGroups_mem hg hs0
    rcases hdisj with hma | hrec | hcat
    · rcases hma with h | h <;> rw [hw] at h <;> exact SubFrequency.noConfusion h
    · exact absurd hrec (by simp [(hflags s0 hs0t).1])
    · exact absurd hcat (by simp [(hflags s0 hs0t).2])

set_option maxRecDepth 1000000 in
/-- Witness for C4 (amended): two flag-free, category-free "Laundromat Co"
charges 30 days apart yield a monthly record, and the theorem applied to
that input shows it is not weekly. -/
theorem C4_weekly_needs_flag_or_category_witness :
    (⟨"laundromat co", 40, SubFrequency.monthly, ["l1", "l2"], 30, 480,
        0, 40, 0⟩ : SubscriptionPattern).frequency ≠ SubFrequency.weekly :=
  (C4_weekly_needs_flag_or_category
      [⟨"l1", "a", "o", 0, 40, "Laundromat Co", none, false⟩,
       ⟨"l2", "a", "o", 30, 40, "Laundromat Co", none, false⟩]).2
    (by decide)
    ⟨"laundromat co", 40, SubFrequency.monthly, ["l1", "l2"], 30, 480, 0, 40, 0⟩
    (by
      have h : detectSubscriptionDrift
          [⟨"l1", "a", "o", 0, 40, "Laundromat Co", none, false⟩,
           ⟨"l2", "a", "o", 30, 40, "Laundromat Co", none, false⟩]
          = [⟨"laundromat co", 40, SubFrequency.monthly, ["l1", "l2"], 30, 480,
              0, 40, 0⟩] := by with_unfolding_all rfl
      rw [h]
      exact List.mem_singleton.mpr rfl)

-- ===========================================================================
-- C9 — category aggregation: selection, grouping, fields, order, stability
-- ===========================================================================

lemma groupMultiset_foldl_upsert (key : Txn → String) (l : List Txn)
    (gs : List (String × List Txn)) :
    groupMultiset (l.foldl (fun m t => upsert (key t) t m) gs)
      = groupMultiset gs + (l : Multiset Txn) := by
  induction l generalizing gs with
  | nil => simp
  | cons x xs ih =>
    simp only [List.foldl_cons]
    rw [ih, groupMultiset_upsert]
    rw [add_assoc, Multiset.singleton_add, Multiset.cons_coe]

lemma groupMultiset_eq_flatten (gs : List (String × List Txn)) :
    groupMultiset gs = (((gs.map fun g => g.2).flatten : List Txn) : Multiset Txn) := by
  induction gs with
  | nil => rfl
  | cons g rest ih =>
    simp only [groupMultiset, ih, List.map_cons, List.flatten_cons]
    rw [Multiset.coe_add]

lemma insertSorted_pairwise {α : Type} (f : α → ℚ) (x : α) (l : List α)
    (h : List.Pairwise (fun a b => f b ≤ f a) l) :
    List.Pairwise (fun a b => f b ≤ f a)
      (insertSorted (fun a b => decide (f b ≤ f a)) x l) := by
  induction l with
  | nil => simp [insertSorted]
  | cons y ys ih =>
    rcases List.pairwise_cons.mp h with ⟨hy, hys⟩
    simp only [insertSorted]
    by_cases hxy : f y ≤ f x
    · rw [if_pos (decide_eq_true hxy)]
      refine List.pairwise_cons.mpr ⟨?_, h⟩
      intro z hz
      rcases List.mem_cons.mp hz with rfl | hz'
      · exact hxy
      · exact le_trans (hy z hz') hxy
    · rw [if_neg (by simpa using hxy)]
      have hlt : f x < f y := lt_of_not_le hxy
      refine List.pairwise_cons.mpr ⟨?_, ih hys⟩
      intro z hz
      rcases mem_insertSorted.mp hz with rfl | hz'
      · exact hlt.le
      · exact hy z hz'

lemma sortOn_pairwise {α : Type} (f : α → ℚ) (l : List α) :
    List.Pairwise (fun a b => f b ≤ f a)
      (sortOn (fun a b => decide (f b ≤ f a)) l) := by
  induction l with
  | nil => simp [sortOn]
  | cons x xs ih => exact insertSorted_pairwise f x _ ih

lemma filter_insertSorted_key {α : Type} (f : α → ℚ) (q : ℚ) (x : α) (l : List α) :
    (insertSorted (fun a b => decide (f b ≤ f a)) x l).filter (fun y => decide (f y = q))
    = if f x = q then x :: l.filter (fun y => decide (f y = q))
      else l.filter (fun y => decide (f y = q)) := by
  induction l with
  | nil =>
    by_cases hx : f x = q
    · simp [insertSorted, List.filter, hx]
    · simp [insertSorted, List.filter, hx]
  | cons y ys ih =>
    simp only [insertSorted]
    by_cases hxy : f y ≤ f x
    · rw [if_pos (decide_eq_true hxy)]
      by_cases hx : f x = q
      · simp [List.filter_cons, hx]
      · simp [List.filter_cons, hx]
    · rw [if_neg (by simpa using hxy)]
      have hlt : f x < f y := lt_of_not_le hxy
      rw [List.filter_cons, List.filter_cons]
      by_cases hy : f y = q
      · have hx : ¬ f x = q := by
          intro hxq
          rw [hxq, hy] at hlt
          exact lt_irrefl q hlt
        rw [if_neg hx] at ih ⊢
        simp [hy, ih]
      · simp only [hy, decide_False, Bool.false_eq_true, if_false]
        rw [ih]

lemma filter_sortOn_key {α : Type} (f : α → ℚ) (q : ℚ) (l : List α) :
    (sortOn (fun a b => decide (f b ≤ f a)) l).filter (fun y => decide (f y = q))
      = l.filter (fun y => decide (f y = q)) := by
  induction l with
  | nil => rfl
  | cons x xs ih =>
    simp only [sortOn]
    rw [filter_insertSorted_key, List.filter_cons]
    by_cases hx : f x = q
    · rw [if_pos hx, ih]
      simp [hx]
    · rw [if_neg hx, ih]
      simp [hx]

/-- C9: `analyzeCategorySpending` selects exactly the strictly
positive-amount transactions (the member lists of the output partition that
filter, as multisets), an unclassified transaction maps to the `Other`
label, every output record satisfies
`total = Σ amounts`, `count`, `average = total/count`,
`percentage = total / grand total × 100` (0 when the grand total is 0), the
output is sorted descending by total, and ties keep the first-encountered
insertion order (restricting the sorted output to any fixed total value
gives exactly the insertion-ordered records with that total). -/
theorem C9_category_aggregation (transactions : List Txn) :
    ((((analyzeCategorySpending transactions).map fun c => c.transactions).flatten :
        List Txn) : Multiset Txn)
      = ((transactions.filter fun t => decide (t.amount > 0) : List Txn) : Multiset Txn)
    ∧ mapPFCToFriendly none = "Other"
    ∧ (∀ c ∈ analyzeCategorySpending transactions,
        c.total = listSum (c.transactions.map fun t => t.amount)
        ∧ c.count = c.transactions.length
        ∧ c.average = c.total / c.count
        ∧ c.percentage = (if spendingTotal transactions > 0
            then c.total / spendingTotal transactions * 100 else 0))
    ∧ List.Pairwise (fun a b => b.total ≤ a.total) (analyzeCategorySpending transactions)
    ∧ (∀ q : ℚ, (analyzeCategorySpending transactions).filter (fun c => decide (c.total = q))
        = (categoryRecords transactions).filter (fun c => decide (c.total = q))) := by
  refine ⟨?_, rfl, ?_, ?_, ?_⟩
  · have hmaps : (categoryRecords transactions).map (fun c => c.transactions)
        = (categoryGroups transactions).map fun g => g.2 := by
      unfold categoryRecords
      rw [List.map_map]
      rfl
    have hgroups : groupMultiset (categoryGroups transactions)
        = ((transactions.filter fun t => decide (t.amount > 0) : List Txn) : Multiset Txn) := by
      unfold categoryGroups
      rw [groupMultiset_foldl_upsert (fun txn => mapPFCToFriendly txn.personal_finance_category)]
      simp [groupMultiset]
    have hperm : List.Perm
        (((analyzeCategorySpending transactions).map fun c => c.transactions).flatten)
        (((categoryRecords transactions).map fun c => c.transactions).flatten) := by
      refine List.Perm.flatten ?_
      exact (perm_sortOn _ _).map _
    calc ((((analyzeCategorySpending transactions).map fun c => c.transactions).flatten :
            List Txn) : Multiset Txn)
        = ((((categoryRecords transactions).map fun c => c.transactions).flatten :
            List Txn) : Multiset Txn) := Multiset.coe_eq_coe.mpr hperm
      _ = groupMultiset (categoryGroups transactions) := by
            rw [hmaps, ← groupMultiset_eq_flatten]
      _ = _ := hgroups
  · intro c hc
    unfold analyzeCategorySpending at hc
    rw [mem_sortOn] at hc
    unfold categoryRecords at hc
    rcases List.mem_map.mp hc with ⟨g, hg, rfl⟩
    exact ⟨foldl_amount_eq g.2, rfl, rfl, rfl⟩
  · exact sortOn_pairwise (fun c => c.total) (categoryRecords transactions)
  · intro q
    exact filter_sortOn_key (fun c => c.total) q (categoryRecords transactions)

/-- Concrete input for the C9 witness. -/
def exC9 : List Txn :=
  [⟨"c1", "a", "o", 0, 10, "Cafe", some ⟨"DINING", "X"⟩, false⟩,
   ⟨"c2", "a", "o", 1, 5, "MysteryShop", none, false⟩,
   ⟨"c3", "a", "o", 2, -4, "Job", none, false⟩,
   ⟨"c4", "a", "o", 3, 2, "Cafe", some ⟨"DINING", "X"⟩, false⟩]

/-- Witness for C9 at a concrete input. -/
theorem C9_category_aggregation_witness :
    ((((analyzeCategorySpending exC9).map fun c => c.transactions).flatten :
        List Txn) : Multiset Txn)
      = ((exC9.filter fun t => decide (t.amount > 0) : List Txn) : Multiset Txn)
    ∧ mapPFCToFriendly none = "Other"
    ∧ (∀ c ∈ analyzeCategorySpending exC9,
        c.total = listSum (c.transactions.map fun t => t.amount)
        ∧ c.count = c.transactions.length
        ∧ c.average = c.total / c.count
        ∧ c.percentage = (if spendingTotal exC9 > 0
            then c.total / spendingTotal exC9 * 100 else 0))
    ∧ List.Pairwise (fun a b => b.total ≤ a.total) (analyzeCategorySpending exC9)
    ∧ (∀ q : ℚ, (analyzeCategorySpending exC9).filter (fun c => decide (c.total = q))
        = (categoryRecords exC9).filter (fun c => decide (c.total = q))) :=
  C9_category_aggregation exC9

end Ledger
